import Mathlib

/-!
Shallow embedding of the capability-detection core of the repository:
`app/core/utils/env.py` (placeholder classifier) and
`app/core/capabilities.py` (CapabilityMatrix).  Python strings are
modelled as Lean `String`; `str.strip()`/`str.lower()` are modelled over
the character list (ASCII whitespace / ASCII case, which covers every
value the configuration layer uses); `Optional[str]` is `Option String`.
-/

namespace PromptStack

/-- Python `s.strip()`: drop leading and trailing whitespace. -/
def pyStrip (s : String) : String :=
  ⟨((s.data.dropWhile Char.isWhitespace).reverse.dropWhile Char.isWhitespace).reverse⟩

/-- Python `s.lower()`: lowercase every character. -/
def pyLower (s : String) : String :=
  ⟨s.data.map Char.toLower⟩

/-- Substring containment on character lists (Python `needle in hay`). -/
def charsContain (needle : List Char) : List Char → Bool
  | [] => needle.isEmpty
  | c :: t => needle.isPrefixOf (c :: t) || charsContain needle t

/-- Python `needle in hay` for strings. -/
def strContains (hay needle : String) : Bool :=
  charsContain needle.data hay.data

/-- The fragment denylist of `is_placeholder` (env.py, `placeholders`). -/
def placeholders : List String :=
  ["your_", "your-", "xxx", "test_", "sk_test_",
   "placeholder", "example", "<your", "change_me",
   "todo", "fixme", "replaceme", "your_key_here",
   "add_your_", "insert_", "dummy", "sample"]

/-- The exact-match denylist of `is_placeholder` (env.py, `exact_placeholders`). -/
def exact_placeholders : List String :=
  ["sk_test_1234567890",
   "eyJhbGciOi...",
   "https://example.supabase.co",
   "your-api-key-here",
   "your_api_key_here"]

/-- env.py `is_placeholder(value: Optional[str]) -> bool`. -/
def is_placeholder : Option String → Bool
  | none => true
  | some value =>
    if value = "" then true
    else
      let value_lower := pyLower (pyStrip value)
      placeholders.any (fun p => strContains value_lower p)
        || decide (value ∈ exact_placeholders)

/-- capabilities.py `CapabilityMatrix._is_valid_key`, the spec's
`is_valid_credential`: `bool(key and not is_placeholder(key))`. -/
def is_valid_credential (key : Option String) : Bool :=
  match key with
  | none => false
  | some v => if v = "" then false else ! is_placeholder (some v)

/-- `_is_valid_key` applied to a settings field (always a `str` in config.py). -/
def is_valid_key (key : String) : Bool :=
  is_valid_credential (some key)

/-- Service availability status (capabilities.py `ServiceStatus`). -/
inductive ServiceStatus where
  | DEMO
  | PRODUCTION
  | UNKNOWN
deriving DecidableEq, Repr

/-- The configuration fields of config.py `Settings` read by the matrix. -/
structure Settings where
  DEMO_MODE : String
  SUPABASE_URL : String
  SUPABASE_ANON_KEY : String
  SUPABASE_SERVICE_KEY : String
  OPENAI_API_KEY : String
  ANTHROPIC_API_KEY : String
  GEMINI_API_KEY : String
  DEEPSEEK_API_KEY : String
  STRIPE_SECRET_KEY : String
  STRIPE_WEBHOOK_SECRET : String
  LEMONSQUEEZY_API_KEY : String
  LEMONSQUEEZY_WEBHOOK_SECRET : String
  RESEND_API_KEY : String
deriving DecidableEq, Repr

/-- The config.py defaults: `DEMO_MODE = "auto"`, every credential `""`. -/
def emptySettings : Settings :=
  { DEMO_MODE := "auto", SUPABASE_URL := "", SUPABASE_ANON_KEY := "",
    SUPABASE_SERVICE_KEY := "", OPENAI_API_KEY := "", ANTHROPIC_API_KEY := "",
    GEMINI_API_KEY := "", DEEPSEEK_API_KEY := "", STRIPE_SECRET_KEY := "",
    STRIPE_WEBHOOK_SECRET := "", LEMONSQUEEZY_API_KEY := "",
    LEMONSQUEEZY_WEBHOOK_SECRET := "", RESEND_API_KEY := "" }

/-- capabilities.py `CapabilityMatrix._detect_capabilities`: the stored
snapshot, in the dict's insertion order. -/
def detect_capabilities (s : Settings) : List (String × ServiceStatus) :=
  let auth :=
    if is_valid_key s.SUPABASE_URL && is_valid_key s.SUPABASE_ANON_KEY
        && is_valid_key s.SUPABASE_SERVICE_KEY then
      ServiceStatus.PRODUCTION
    else ServiceStatus.DEMO
  let database :=
    if is_valid_key s.SUPABASE_URL && is_valid_key s.SUPABASE_SERVICE_KEY then
      ServiceStatus.PRODUCTION
    else ServiceStatus.DEMO
  let openai :=
    if is_valid_key s.OPENAI_API_KEY then ServiceStatus.PRODUCTION
    else ServiceStatus.DEMO
  let anthropic :=
    if is_valid_key s.ANTHROPIC_API_KEY then ServiceStatus.PRODUCTION
    else ServiceStatus.DEMO
  let gemini :=
    if is_valid_key s.GEMINI_API_KEY then ServiceStatus.PRODUCTION
    else ServiceStatus.DEMO
  let deepseek :=
    if is_valid_key s.DEEPSEEK_API_KEY then ServiceStatus.PRODUCTION
    else ServiceStatus.DEMO
  let payments :=
    if (is_valid_key s.STRIPE_SECRET_KEY && is_valid_key s.STRIPE_WEBHOOK_SECRET)
        || (is_valid_key s.LEMONSQUEEZY_API_KEY
            && is_valid_key s.LEMONSQUEEZY_WEBHOOK_SECRET) then
      ServiceStatus.PRODUCTION
    else ServiceStatus.DEMO
  let email :=
    if is_valid_key s.RESEND_API_KEY then ServiceStatus.PRODUCTION
    else ServiceStatus.DEMO
  [("auth", auth), ("database", database), ("openai", openai),
   ("anthropic", anthropic), ("gemini", gemini), ("deepseek", deepseek),
   ("payments", payments), ("email", email), ("vector_search", database)]

/-- Python `dict.get(service, default)` over the snapshot. -/
def lookupD (caps : List (String × ServiceStatus)) (service : String)
    (d : ServiceStatus) : ServiceStatus :=
  match caps.find? (fun p => decide (p.1 = service)) with
  | some p => p.2
  | none => d

/-- capabilities.py `CapabilityMatrix.get_capability`. -/
def get_capability (s : Settings) (service : String) : ServiceStatus :=
  if pyLower s.DEMO_MODE = "true" then
    ServiceStatus.DEMO
  else if pyLower s.DEMO_MODE = "false" then
    let status := lookupD (detect_capabilities s) service ServiceStatus.DEMO
    if status = ServiceStatus.PRODUCTION then status else ServiceStatus.UNKNOWN
  else
    let status := lookupD (detect_capabilities s) service ServiceStatus.UNKNOWN
    if status = ServiceStatus.UNKNOWN then ServiceStatus.DEMO else status

/-- capabilities.py `CapabilityMatrix.is_demo_mode`. -/
def is_demo_mode (s : Settings) : Bool :=
  if pyLower s.DEMO_MODE = "true" then true
  else if pyLower s.DEMO_MODE = "false" then false
  else (detect_capabilities s).all (fun p => decide (p.2 = ServiceStatus.DEMO))

/-- capabilities.py `CapabilityMatrix.has_real_auth`. -/
def has_real_auth (s : Settings) : Bool :=
  decide (get_capability s "auth" = ServiceStatus.PRODUCTION)

/-- The fixed AI service order used by the matrix. -/
def ai_services : List String :=
  ["openai", "anthropic", "gemini", "deepseek"]

/-- capabilities.py `CapabilityMatrix.has_real_ai_providers`. -/
def has_real_ai_providers (s : Settings) : Bool :=
  ai_services.any (fun svc => decide (get_capability s svc = ServiceStatus.PRODUCTION))

/-- capabilities.py `CapabilityMatrix.available_ai_providers`: starts from
`["demo"]` and appends each production AI provider in order. -/
def available_ai_providers (s : Settings) : List String :=
  ai_services.foldl
    (fun providers svc =>
      if get_capability s svc = ServiceStatus.PRODUCTION then providers ++ [svc]
      else providers)
    ["demo"]

/-- Python `status.name.lower()`. -/
def statusName : ServiceStatus → String
  | ServiceStatus.DEMO => "demo"
  | ServiceStatus.PRODUCTION => "production"
  | ServiceStatus.UNKNOWN => "unknown"

/-- capabilities.py `CapabilityMatrix._get_payment_providers`. -/
def get_payment_providers (s : Settings) : List String :=
  let providers : List String := []
  let providers :=
    if is_valid_key s.STRIPE_SECRET_KEY && is_valid_key s.STRIPE_WEBHOOK_SECRET then
      providers ++ ["stripe"]
    else providers
  let providers :=
    if is_valid_key s.LEMONSQUEEZY_API_KEY
        && is_valid_key s.LEMONSQUEEZY_WEBHOOK_SECRET then
      providers ++ ["lemon_squeezy"]
    else providers
  providers

/-- `features.authentication` of the status summary. -/
structure FeatureAuthentication where
  enabled : Bool
  provider : String
deriving DecidableEq, Repr

/-- `features.ai_providers` of the status summary. -/
structure FeatureAiProviders where
  enabled : Bool
  available : List String
deriving DecidableEq, Repr

/-- `features.payments` of the status summary. -/
structure FeaturePayments where
  enabled : Bool
  providers : List String
deriving DecidableEq, Repr

/-- `features.vector_search` of the status summary. -/
structure FeatureVectorSearch where
  enabled : Bool
  provider : String
deriving DecidableEq, Repr

/-- The `features` object of the status summary. -/
structure Features where
  authentication : FeatureAuthentication
  ai_providers : FeatureAiProviders
  payments : FeaturePayments
  vector_search : FeatureVectorSearch
deriving DecidableEq, Repr

/-- The dict returned by `get_status_summary`. -/
structure StatusSummary where
  mode : String
  is_demo : Bool
  capabilities : List (String × String)
  features : Features
deriving DecidableEq, Repr

/-- capabilities.py `CapabilityMatrix.get_status_summary`. -/
def get_status_summary (s : Settings) : StatusSummary :=
  let mode :=
    if pyLower s.DEMO_MODE = "true" then "demo (forced)"
    else if pyLower s.DEMO_MODE = "false" then "production (forced)"
    else if pyLower s.DEMO_MODE = "auto" then
      (if is_demo_mode s then "demo" else "mixed")
    else "auto"
  { mode := mode
    is_demo := is_demo_mode s
    capabilities := (detect_capabilities s).map (fun p => (p.1, statusName p.2))
    features :=
      { authentication :=
          { enabled := has_real_auth s
            provider := if has_real_auth s then "supabase" else "demo" }
        ai_providers :=
          { enabled := has_real_ai_providers s
            available := available_ai_providers s }
        payments :=
          { enabled := decide (get_capability s "payments" = ServiceStatus.PRODUCTION)
            providers := get_payment_providers s }
        vector_search :=
          { enabled := decide (get_capability s "vector_search" = ServiceStatus.PRODUCTION)
            provider :=
              if get_capability s "vector_search" = ServiceStatus.PRODUCTION then
                "pgvector"
              else "in_memory" } } }

/-- Replace only the `DEMO_MODE` field. -/
def withMode (s : Settings) (m : String) : Settings :=
  { s with DEMO_MODE := m }

/-- Lookup in the string-valued `capabilities` map of a summary. -/
def lookupCapName (caps : List (String × String)) (service : String) : Option String :=
  (caps.find? (fun p => decide (p.1 = service))).map Prod.snd

/-! ### Helper lemmas -/

theorem detect_withMode (s : Settings) (m : String) :
    detect_capabilities (withMode s m) = detect_capabilities s := rfl

theorem get_capability_withMode (s : Settings) (m : String) (svc : String) :
    get_capability (withMode s m) svc =
      (if pyLower m = "true" then ServiceStatus.DEMO
       else if pyLower m = "false" then
         (if lookupD (detect_capabilities s) svc ServiceStatus.DEMO
             = ServiceStatus.PRODUCTION then
           lookupD (detect_capabilities s) svc ServiceStatus.DEMO
         else ServiceStatus.UNKNOWN)
       else
         (if lookupD (detect_capabilities s) svc ServiceStatus.UNKNOWN
             = ServiceStatus.UNKNOWN then
           ServiceStatus.DEMO
         else lookupD (detect_capabilities s) svc ServiceStatus.UNKNOWN)) := rfl

theorem get_capability_auto_mode (s : Settings) (svc : String) :
    get_capability (withMode s "auto") svc =
      (if lookupD (detect_capabilities s) svc ServiceStatus.UNKNOWN
          = ServiceStatus.UNKNOWN then
        ServiceStatus.DEMO
      else lookupD (detect_capabilities s) svc ServiceStatus.UNKNOWN) := rfl

theorem resolve_unknown_ne (st : ServiceStatus) :
    (if st = ServiceStatus.UNKNOWN then ServiceStatus.DEMO else st)
      ≠ ServiceStatus.UNKNOWN := by
  cases st <;> simp

/-! ### C1 -/

/-- C1 counterexample: with `DEMO_MODE = "false"` and no credentials configured,
`get_capability("auth")` is neither `Demo` nor `Production` — the claim that the
returned value is always `Demo` or `Production` fails. -/
theorem C1_counterexample :
    ¬ (get_capability { emptySettings with DEMO_MODE := "false" } "auth"
          = ServiceStatus.DEMO
        ∨ get_capability { emptySettings with DEMO_MODE := "false" } "auth"
          = ServiceStatus.PRODUCTION) := by decide

/-- C1 (amended): under `ForceDemo` and `Auto` the result of `get_capability` is
never `Unknown` (under `Auto` a service absent from the snapshot resolves to
`Demo`), but under `ForceProduction` (`DEMO_MODE` lowercasing to `"false"`) a
service whose stored snapshot status is not `Production` yields `Unknown` to the
caller rather than `Demo`. -/
theorem C1_amended_unknown_leak (s : Settings) (svc : String) :
    (pyLower s.DEMO_MODE ≠ "false" →
      get_capability s svc ≠ ServiceStatus.UNKNOWN)
    ∧ (pyLower s.DEMO_MODE = "false" →
        lookupD (detect_capabilities s) svc ServiceStatus.DEMO
          ≠ ServiceStatus.PRODUCTION →
        get_capability s svc = ServiceStatus.UNKNOWN) := by
  constructor
  · intro hf
    by_cases ht : pyLower s.DEMO_MODE = "true"
    · simp [get_capability, ht]
    · unfold get_capability
      rw [if_neg ht, if_neg hf]
      exact resolve_unknown_ne _
  · intro hf hnp
    have ht : pyLower s.DEMO_MODE ≠ "true" := by rw [hf]; decide
    unfold get_capability
    rw [if_neg ht, if_pos hf, if_neg hnp]

/-- C1 witness: the amended claim at concrete inputs. -/
theorem C1_amended_unknown_leak_witness :
    get_capability emptySettings "auth" ≠ ServiceStatus.UNKNOWN
    ∧ get_capability { emptySettings with DEMO_MODE := "false" } "database"
        = ServiceStatus.UNKNOWN :=
  ⟨(C1_amended_unknown_leak emptySettings "auth").1 (by decide),
   (C1_amended_unknown_leak { emptySettings with DEMO_MODE := "false" }
      "database").2 (by decide) (by decide)⟩

/-! ### C2 -/

/-- C2 counterexample: `DEMO_MODE = " TRUE "` is not trimmed, so it does not
behave like `"true"` (the capability stays `Production`), and for the
unrecognized value `"garbage"` the summary mode is the string `"auto"`, not
`"demo"` or `"mixed"`. -/
theorem C2_counterexample :
    get_capability
        { emptySettings with DEMO_MODE := " TRUE ", OPENAI_API_KEY := "sk-real" }
        "openai" = ServiceStatus.PRODUCTION
    ∧ get_capability
        { emptySettings with DEMO_MODE := "true", OPENAI_API_KEY := "sk-real" }
        "openai" = ServiceStatus.DEMO
    ∧ (get_status_summary { emptySettings with DEMO_MODE := "garbage" }).mode
        = "auto"
    ∧ (get_status_summary { emptySettings with DEMO_MODE := "garbage" }).mode
        ≠ "demo"
    ∧ (get_status_summary { emptySettings with DEMO_MODE := "garbage" }).mode
        ≠ "mixed" := by decide

/-- C2 (amended): interpretation of `DEMO_MODE` is case-insensitive (all
comparisons read it through lowercasing) but not whitespace-trimmed; any value
whose lowercase form is neither `"true"` nor `"false"` behaves as `"auto"` in
`get_capability`, `is_demo_mode`, and the `is_demo`/`capabilities` fields of
`get_status_summary`, but when the lowercase form is also not `"auto"` the
summary `mode` field is the string `"auto"`, not `"demo"` or `"mixed"`. -/
theorem C2_amended_mode_parsing (s : Settings) (svc : String)
    (h1 : pyLower s.DEMO_MODE ≠ "true") (h2 : pyLower s.DEMO_MODE ≠ "false") :
    get_capability s svc = get_capability (withMode s "auto") svc
    ∧ is_demo_mode s = is_demo_mode (withMode s "auto")
    ∧ (get_status_summary s).is_demo
        = (get_status_summary (withMode s "auto")).is_demo
    ∧ (get_status_summary s).capabilities
        = (get_status_summary (withMode s "auto")).capabilities
    ∧ (pyLower s.DEMO_MODE ≠ "auto" → (get_status_summary s).mode = "auto")
    ∧ (∀ m mm : String, pyLower m = pyLower mm →
        get_capability (withMode s m) svc = get_capability (withMode s mm) svc) := by
  have hdm : is_demo_mode s = is_demo_mode (withMode s "auto") := by
    unfold is_demo_mode
    rw [if_neg h1, if_neg h2]
    rfl
  refine ⟨?_, hdm, hdm, rfl, ?_, ?_⟩
  · rw [get_capability_auto_mode]
    unfold get_capability
    rw [if_neg h1, if_neg h2]
  · intro h3
    show (if pyLower s.DEMO_MODE = "true" then "demo (forced)"
      else if pyLower s.DEMO_MODE = "false" then "production (forced)"
      else if pyLower s.DEMO_MODE = "auto" then
        (if is_demo_mode s then "demo" else "mixed")
      else "auto") = "auto"
    rw [if_neg h1, if_neg h2, if_neg h3]
  · intro m mm hmm
    rw [get_capability_withMode, get_capability_withMode, hmm]

/-- C2 witness: the amended claim at a concrete unrecognized value. -/
theorem C2_amended_mode_parsing_witness :
    get_capability { emptySettings with DEMO_MODE := "garbage" } "openai"
      = get_capability (withMode { emptySettings with DEMO_MODE := "garbage" }
          "auto") "openai" :=
  (C2_amended_mode_parsing { emptySettings with DEMO_MODE := "garbage" } "openai"
    (by decide) (by decide)).1

/-! ### C3 -/

/-- C3: whenever `DEMO_MODE` lowercases to `"true"` (ForceDemo),
`get_capability` returns `Demo` for every service name and every credential
configuration, including names outside the known service set. -/
theorem C3_forced_demo (s : Settings) (svc : String)
    (h : pyLower s.DEMO_MODE = "true") :
    get_capability s svc = ServiceStatus.DEMO := by
  unfold get_capability
  rw [if_pos h]

/-- C3 witness: forced demo at a concrete fully-configured input and an unknown
service name. -/
theorem C3_forced_demo_witness :
    get_capability
      { emptySettings with
        DEMO_MODE := "TRUE"
        OPENAI_API_KEY := "sk-real"
        STRIPE_SECRET_KEY := "sk-live-x"
        STRIPE_WEBHOOK_SECRET := "whsec-x" }
      "mystery_service" = ServiceStatus.DEMO :=
  C3_forced_demo _ "mystery_service" (by decide)

/-! ### C4 -/

/-- C4: `is_valid_credential` accepts exactly the non-empty strings whose
trimmed lowercase form contains no denylist fragment and which are not an exact
known sample value; it is total on `None`/empty input; a credential containing
`test_` anywhere is rejected; and the three concrete probes behave as
specified. -/
theorem C4_is_valid_credential_spec (v : String) :
    (is_valid_credential (some v) = true ↔
      (v ≠ ""
        ∧ (∀ p ∈ placeholders, strContains (pyLower (pyStrip v)) p = false)
        ∧ v ∉ exact_placeholders))
    ∧ (strContains (pyLower (pyStrip v)) "test_" = true →
        is_valid_credential (some v) = false)
    ∧ is_valid_credential none = false
    ∧ is_valid_credential (some "") = false
    ∧ is_valid_credential (some "your-api-key-here") = false
    ∧ is_valid_credential (some "https://example.supabase.co") = false
    ∧ is_valid_credential (some "sk-live-abc123realkey") = true := by
  refine ⟨?_, ?_, by decide, by decide, by decide, by decide, by decide⟩
  · by_cases hv : v = ""
    · subst hv
      simp [is_valid_credential]
    · simp only [is_valid_credential, if_neg hv, Bool.not_eq_true']
      simp [is_placeholder, hv, List.any_eq_false]
  · intro h
    by_cases hv : v = ""
    · simp [is_valid_credential, hv]
    · have hp : is_placeholder (some v) = true := by
        have ha : placeholders.any (fun p => strContains (pyLower (pyStrip v)) p)
            = true := List.any_eq_true.mpr ⟨"test_", by decide, h⟩
        simp only [is_placeholder, if_neg hv]
        simp [ha]
      simp [is_valid_credential, hv, hp]

/-- C4 witness: a key containing `test_` in the middle is rejected. -/
theorem C4_is_valid_credential_spec_witness :
    strContains (pyLower (pyStrip "mytest_key")) "test_" = true
    ∧ is_valid_credential (some "mytest_key") = false :=
  ⟨by decide, (C4_is_valid_credential_spec "mytest_key").2.1 (by decide)⟩

/-! ### C5 -/

theorem lookupD_auth (s : Settings) (d : ServiceStatus) :
    lookupD (detect_capabilities s) "auth" d =
      (if is_valid_key s.SUPABASE_URL && is_valid_key s.SUPABASE_ANON_KEY
          && is_valid_key s.SUPABASE_SERVICE_KEY then
        ServiceStatus.PRODUCTION
      else ServiceStatus.DEMO) := rfl

theorem status_if_eq_prod (b : Bool) :
    ((if b then ServiceStatus.PRODUCTION else ServiceStatus.DEMO)
      = ServiceStatus.PRODUCTION) ↔ b = true := by
  cases b <;> simp

theorem get_capability_auth_auto (s : Settings)
    (h1 : pyLower s.DEMO_MODE ≠ "true") (h2 : pyLower s.DEMO_MODE ≠ "false") :
    get_capability s "auth" =
      (if is_valid_key s.SUPABASE_URL && is_valid_key s.SUPABASE_ANON_KEY
          && is_valid_key s.SUPABASE_SERVICE_KEY then
        ServiceStatus.PRODUCTION
      else ServiceStatus.DEMO) := by
  unfold get_capability
  rw [if_neg h1, if_neg h2, lookupD_auth]
  cases hb : (is_valid_key s.SUPABASE_URL && is_valid_key s.SUPABASE_ANON_KEY
      && is_valid_key s.SUPABASE_SERVICE_KEY) <;> simp

theorem auth_demo_of_invalid (s : Settings)
    (h1 : pyLower s.DEMO_MODE ≠ "true") (h2 : pyLower s.DEMO_MODE ≠ "false")
    (hinv : is_valid_key s.SUPABASE_URL = false
      ∨ is_valid_key s.SUPABASE_ANON_KEY = false
      ∨ is_valid_key s.SUPABASE_SERVICE_KEY = false) :
    get_capability s "auth" = ServiceStatus.DEMO := by
  rw [get_capability_auth_auto s h1 h2]
  rcases hinv with h | h | h <;> simp [h]

/-- C5: under Auto mode the auth capability is `Production` iff all three
Supabase credentials are individually valid; replacing any single one by an
invalid (placeholder or empty) string yields `Demo`; and `has_real_auth` is
exactly the test `get_capability("auth") == Production`. -/
theorem C5_compound_auth (s : Settings)
    (h1 : pyLower s.DEMO_MODE ≠ "true") (h2 : pyLower s.DEMO_MODE ≠ "false") :
    (get_capability s "auth" = ServiceStatus.PRODUCTION ↔
      (is_valid_key s.SUPABASE_URL = true
        ∧ is_valid_key s.SUPABASE_ANON_KEY = true
        ∧ is_valid_key s.SUPABASE_SERVICE_KEY = true))
    ∧ (∀ p : String, is_valid_credential (some p) = false →
        get_capability { s with SUPABASE_URL := p } "auth" = ServiceStatus.DEMO
        ∧ get_capability { s with SUPABASE_ANON_KEY := p } "auth"
            = ServiceStatus.DEMO
        ∧ get_capability { s with SUPABASE_SERVICE_KEY := p } "auth"
            = ServiceStatus.DEMO)
    ∧ has_real_auth s
        = decide (get_capability s "auth" = ServiceStatus.PRODUCTION) := by
  refine ⟨?_, ?_, rfl⟩
  · rw [get_capability_auth_auto s h1 h2, status_if_eq_prod, Bool.and_eq_true,
      Bool.and_eq_true, and_assoc]
  · intro p hp
    exact ⟨auth_demo_of_invalid _ h1 h2 (Or.inl hp),
      auth_demo_of_invalid _ h1 h2 (Or.inr (Or.inl hp)),
      auth_demo_of_invalid _ h1 h2 (Or.inr (Or.inr hp))⟩

/-- A fully valid Supabase configuration under Auto mode. -/
def supaSettings : Settings :=
  { emptySettings with
    SUPABASE_URL := "https://real.supabase.co"
    SUPABASE_ANON_KEY := "eyJreal"
    SUPABASE_SERVICE_KEY := "eyJservice" }

/-- C5 witness: auth production with all three keys valid, demo after the anon
key is replaced by a placeholder. -/
theorem C5_compound_auth_witness :
    get_capability supaSettings "auth" = ServiceStatus.PRODUCTION
    ∧ get_capability { supaSettings with SUPABASE_ANON_KEY := "your-key" }
        "auth" = ServiceStatus.DEMO :=
  ⟨(C5_compound_auth supaSettings (by decide) (by decide)).1.mpr (by decide),
   ((C5_compound_auth supaSettings (by decide) (by decide)).2.1 "your-key"
      (by decide)).2.1⟩

/-! ### C6 -/

theorem lookupD_payments (s : Settings) (d : ServiceStatus) :
    lookupD (detect_capabilities s) "payments" d =
      (if (is_valid_key s.STRIPE_SECRET_KEY && is_valid_key s.STRIPE_WEBHOOK_SECRET)
          || (is_valid_key s.LEMONSQUEEZY_API_KEY
              && is_valid_key s.LEMONSQUEEZY_WEBHOOK_SECRET) then
        ServiceStatus.PRODUCTION
      else ServiceStatus.DEMO) := rfl

/-- C6: the stored payments capability is `Production` iff one of the two
provider credential pairs is fully valid; the summary's `features.payments`
reports `enabled` as the resolved capability test and `providers` as the
ordered subset of stripe then lemon_squeezy whose credential pairs are valid. -/
theorem C6_payments (s : Settings) :
    (lookupD (detect_capabilities s) "payments" ServiceStatus.UNKNOWN
        = ServiceStatus.PRODUCTION ↔
      ((is_valid_key s.STRIPE_SECRET_KEY = true
          ∧ is_valid_key s.STRIPE_WEBHOOK_SECRET = true)
        ∨ (is_valid_key s.LEMONSQUEEZY_API_KEY = true
            ∧ is_valid_key s.LEMONSQUEEZY_WEBHOOK_SECRET = true)))
    ∧ (get_status_summary s).features.payments.enabled
        = decide (get_capability s "payments" = ServiceStatus.PRODUCTION)
    ∧ (get_status_summary s).features.payments.providers
        = (if is_valid_key s.STRIPE_SECRET_KEY
              && is_valid_key s.STRIPE_WEBHOOK_SECRET then
            ["stripe"]
          else [])
          ++ (if is_valid_key s.LEMONSQUEEZY_API_KEY
                && is_valid_key s.LEMONSQUEEZY_WEBHOOK_SECRET then
              ["lemon_squeezy"]
            else []) := by
  refine ⟨?_, rfl, ?_⟩
  · rw [lookupD_payments, status_if_eq_prod]
    simp
  · have hpp : (get_status_summary s).features.payments.providers
        = get_payment_providers s := rfl
    rw [hpp]
    simp only [get_payment_providers]
    cases hs : (is_valid_key s.STRIPE_SECRET_KEY
        && is_valid_key s.STRIPE_WEBHOOK_SECRET) <;>
      cases hl : (is_valid_key s.LEMONSQUEEZY_API_KEY
        && is_valid_key s.LEMONSQUEEZY_WEBHOOK_SECRET) <;>
      simp [hs, hl]

/-! ### C7 -/

theorem foldl_collect (p : String → Prop) [DecidablePred p] :
    ∀ (l acc : List String),
      l.foldl (fun r x => if p x then r ++ [x] else r) acc
        = acc ++ l.filter (fun x => decide (p x))
  | [], acc => by simp
  | x :: t, acc => by
    by_cases hx : p x
    · rw [List.foldl_cons, if_pos hx, foldl_collect p t (acc ++ [x])]
      simp [List.filter_cons, hx]
    · rw [List.foldl_cons, if_neg hx, foldl_collect p t acc]
      simp [List.filter_cons, hx]

/-- C7: `available_ai_providers` is always `"demo"` followed by exactly the AI
services whose capability resolves to `Production`, in the fixed order openai,
anthropic, gemini, deepseek; and on the concrete P5 configuration it is exactly
`["demo", "openai", "gemini"]`. -/
theorem C7_available_ai_providers (s : Settings) :
    available_ai_providers s
      = "demo" :: ai_services.filter
          (fun svc => decide (get_capability s svc = ServiceStatus.PRODUCTION))
    ∧ available_ai_providers
        { emptySettings with
          OPENAI_API_KEY := "sk-real"
          GEMINI_API_KEY := "AIza-real" }
      = ["demo", "openai", "gemini"] := by
  refine ⟨?_, by decide⟩
  unfold available_ai_providers
  rw [foldl_collect (fun svc => get_capability s svc = ServiceStatus.PRODUCTION)
    ai_services ["demo"]]
  rfl

/-! ### C8 -/

/-- C8: `is_demo_mode` is true iff the override lowercases to `"true"`, or the
override is Auto (neither `"true"` nor `"false"`) and every stored snapshot
entry is `Demo`; under `"false"` it is always false. -/
theorem C8_is_demo_mode (s : Settings) :
    (is_demo_mode s = true ↔
      (pyLower s.DEMO_MODE = "true"
        ∨ (pyLower s.DEMO_MODE ≠ "true" ∧ pyLower s.DEMO_MODE ≠ "false"
            ∧ ∀ p ∈ detect_capabilities s, p.2 = ServiceStatus.DEMO)))
    ∧ (pyLower s.DEMO_MODE = "false" → is_demo_mode s = false) := by
  constructor
  · by_cases ht : pyLower s.DEMO_MODE = "true"
    · simp [is_demo_mode, ht]
    · by_cases hf : pyLower s.DEMO_MODE = "false"
      · simp [is_demo_mode, ht, hf]
      · simp [is_demo_mode, ht, hf, List.all_eq_true]
  · intro hf
    have ht : pyLower s.DEMO_MODE ≠ "true" := by rw [hf]; decide
    simp [is_demo_mode, ht, hf]

/-- C8 witness: forced production mode reports non-demo even with nothing
configured. -/
theorem C8_is_demo_mode_witness :
    is_demo_mode { emptySettings with DEMO_MODE := "false" } = false :=
  (C8_is_demo_mode { emptySettings with DEMO_MODE := "false" }).2 (by decide)

/-! ### C9 -/

theorem statusName_detected (b : Bool) :
    statusName (if b then ServiceStatus.PRODUCTION else ServiceStatus.DEMO)
        = "demo"
    ∨ statusName (if b then ServiceStatus.PRODUCTION else ServiceStatus.DEMO)
        = "production" := by
  cases b <;> simp [statusName]

/-- Forced demo mode with a fully valid Stripe credential pair. -/
def stripeForcedDemoSettings : Settings :=
  { emptySettings with
    DEMO_MODE := "true"
    STRIPE_SECRET_KEY := "sk-live-abc"
    STRIPE_WEBHOOK_SECRET := "whsec-abc" }

/-- C9: the summary's `capabilities` field always lists the nine services with
a `"demo"`/`"production"` string (never `"unknown"`), is unaffected by the
`DEMO_MODE` override, and in particular under forced demo with valid Stripe
credentials it reports payments as `"production"` while `get_capability`
returns `Demo` for the same configuration. -/
theorem C9_summary_capabilities (s : Settings) (m : String) :
    (get_status_summary s).capabilities.map Prod.fst
      = ["auth", "database", "openai", "anthropic", "gemini", "deepseek",
         "payments", "email", "vector_search"]
    ∧ (∀ q ∈ (get_status_summary s).capabilities,
        q.2 = "demo" ∨ q.2 = "production")
    ∧ (get_status_summary (withMode s m)).capabilities
        = (get_status_summary s).capabilities
    ∧ lookupCapName (get_status_summary stripeForcedDemoSettings).capabilities
        "payments" = some "production"
    ∧ get_capability stripeForcedDemoSettings "payments" = ServiceStatus.DEMO := by
  refine ⟨rfl, ?_, rfl, by decide, by decide⟩
  intro q hq
  have hc : (get_status_summary s).capabilities
      = (detect_capabilities s).map (fun p => (p.1, statusName p.2)) := rfl
  rw [hc] at hq
  simp only [detect_capabilities, List.map_cons, List.map_nil, List.mem_cons,
    List.not_mem_nil, or_false] at hq
  rcases hq with h | h | h | h | h | h | h | h | h <;>
    (rw [h]; exact statusName_detected _)

/-- C9 witness: the value constraint at a concrete member of the map. -/
theorem C9_summary_capabilities_witness :
    (("auth", "demo") : String × String).2 = "demo"
    ∨ (("auth", "demo") : String × String).2 = "production" :=
  (C9_summary_capabilities emptySettings "auto").2.1 ("auth", "demo") (by decide)

/-! ### C10 -/

theorem get_capability_openai_auto (s : Settings)
    (h1 : pyLower s.DEMO_MODE ≠ "true") (h2 : pyLower s.DEMO_MODE ≠ "false") :
    get_capability s "openai" =
      (if is_valid_key s.OPENAI_API_KEY then ServiceStatus.PRODUCTION
       else ServiceStatus.DEMO) := by
  unfold get_capability
  rw [if_neg h1, if_neg h2]
  have hl : lookupD (detect_capabilities s) "openai" ServiceStatus.UNKNOWN
      = (if is_valid_key s.OPENAI_API_KEY then ServiceStatus.PRODUCTION
         else ServiceStatus.DEMO) := rfl
  rw [hl]
  cases hb : is_valid_key s.OPENAI_API_KEY <;> simp

theorem get_capability_anthropic_auto (s : Settings)
    (h1 : pyLower s.DEMO_MODE ≠ "true") (h2 : pyLower s.DEMO_MODE ≠ "false") :
    get_capability s "anthropic" =
      (if is_valid_key s.ANTHROPIC_API_KEY then ServiceStatus.PRODUCTION
       else ServiceStatus.DEMO) := by
  unfold get_capability
  rw [if_neg h1, if_neg h2]
  have hl : lookupD (detect_capabilities s) "anthropic" ServiceStatus.UNKNOWN
      = (if is_valid_key s.ANTHROPIC_API_KEY then ServiceStatus.PRODUCTION
         else ServiceStatus.DEMO) := rfl
  rw [hl]
  cases hb : is_valid_key s.ANTHROPIC_API_KEY <;> simp

theorem get_capability_gemini_auto (s : Settings)
    (h1 : pyLower s.DEMO_MODE ≠ "true") (h2 : pyLower s.DEMO_MODE ≠ "false") :
    get_capability s "gemini" =
      (if is_valid_key s.GEMINI_API_KEY then ServiceStatus.PRODUCTION
       else ServiceStatus.DEMO) := by
  unfold get_capability
  rw [if_neg h1, if_neg h2]
  have hl : lookupD (detect_capabilities s) "gemini" ServiceStatus.UNKNOWN
      = (if is_valid_key s.GEMINI_API_KEY then ServiceStatus.PRODUCTION
         else ServiceStatus.DEMO) := rfl
  rw [hl]
  cases hb : is_valid_key s.GEMINI_API_KEY <;> simp

theorem get_capability_deepseek_auto (s : Settings)
    (h1 : pyLower s.DEMO_MODE ≠ "true") (h2 : pyLower s.DEMO_MODE ≠ "false") :
    get_capability s "deepseek" =
      (if is_valid_key s.DEEPSEEK_API_KEY then ServiceStatus.PRODUCTION
       else ServiceStatus.DEMO) := by
  unfold get_capability
  rw [if_neg h1, if_neg h2]
  have hl : lookupD (detect_capabilities s) "deepseek" ServiceStatus.UNKNOWN
      = (if is_valid_key s.DEEPSEEK_API_KEY then ServiceStatus.PRODUCTION
         else ServiceStatus.DEMO) := rfl
  rw [hl]
  cases hb : is_valid_key s.DEEPSEEK_API_KEY <;> simp

theorem get_capability_email_auto (s : Settings)
    (h1 : pyLower s.DEMO_MODE ≠ "true") (h2 : pyLower s.DEMO_MODE ≠ "false") :
    get_capability s "email" =
      (if is_valid_key s.RESEND_API_KEY then ServiceStatus.PRODUCTION
       else ServiceStatus.DEMO) := by
  unfold get_capability
  rw [if_neg h1, if_neg h2]
  have hl : lookupD (detect_capabilities s) "email" ServiceStatus.UNKNOWN
      = (if is_valid_key s.RESEND_API_KEY then ServiceStatus.PRODUCTION
         else ServiceStatus.DEMO) := rfl
  rw [hl]
  cases hb : is_valid_key s.RESEND_API_KEY <;> simp

theorem if_valid_prod (b : Bool) (hb : b = true) :
    (if b then ServiceStatus.PRODUCTION else ServiceStatus.DEMO)
      = ServiceStatus.PRODUCTION := by
  simp [hb]

/-- C10: a non-empty all-whitespace string is classified as a valid credential
(the fragment denylist sees the trimmed-empty value and the exact denylist sees
the untrimmed original), so under Auto every single-key service whose key is set
to such a string detects as `Production`. -/
theorem C10_whitespace_valid (s : Settings) (w : String)
    (hw : pyStrip w = "") (hne : w ≠ "")
    (h1 : pyLower s.DEMO_MODE ≠ "true") (h2 : pyLower s.DEMO_MODE ≠ "false") :
    is_valid_credential (some " ") = true
    ∧ is_valid_credential (some w) = true
    ∧ get_capability { s with OPENAI_API_KEY := w } "openai"
        = ServiceStatus.PRODUCTION
    ∧ get_capability { s with ANTHROPIC_API_KEY := w } "anthropic"
        = ServiceStatus.PRODUCTION
    ∧ get_capability { s with GEMINI_API_KEY := w } "gemini"
        = ServiceStatus.PRODUCTION
    ∧ get_capability { s with DEEPSEEK_API_KEY := w } "deepseek"
        = ServiceStatus.PRODUCTION
    ∧ get_capability { s with RESEND_API_KEY := w } "email"
        = ServiceStatus.PRODUCTION := by
  have hmem : w ∉ exact_placeholders := by
    intro hm
    simp only [exact_placeholders, List.mem_cons, List.not_mem_nil,
      or_false] at hm
    rcases hm with h | h | h | h | h <;> (rw [h] at hw; exact absurd hw (by decide))
  have hfrag : placeholders.any (fun p => strContains (pyLower (pyStrip w)) p)
      = false := by
    rw [hw]
    decide
  have hvw : is_valid_credential (some w) = true := by
    simp only [is_valid_credential, if_neg hne, Bool.not_eq_true']
    simp [is_placeholder, hne, hfrag, hmem]
  refine ⟨by decide, hvw, ?_, ?_, ?_, ?_, ?_⟩
  · exact (get_capability_openai_auto { s with OPENAI_API_KEY := w } h1
      h2).trans (if_valid_prod _ hvw)
  · exact (get_capability_anthropic_auto { s with ANTHROPIC_API_KEY := w } h1
      h2).trans (if_valid_prod _ hvw)
  · exact (get_capability_gemini_auto { s with GEMINI_API_KEY := w } h1
      h2).trans (if_valid_prod _ hvw)
  · exact (get_capability_deepseek_auto { s with DEEPSEEK_API_KEY := w } h1
      h2).trans (if_valid_prod _ hvw)
  · exact (get_capability_email_auto { s with RESEND_API_KEY := w } h1
      h2).trans (if_valid_prod _ hvw)

/-- C10 witness: the single space at the concrete default configuration. -/
theorem C10_whitespace_valid_witness :
    get_capability { emptySettings with OPENAI_API_KEY := " " } "openai"
      = ServiceStatus.PRODUCTION :=
  (C10_whitespace_valid emptySettings " " (by decide) (by decide) (by decide)
    (by decide)).2.2.1

end PromptStack
